import Mathlib

/-!
Verification of the MiniTweet repository (a Django microblogging app) against
its natural-language specification.  The definitions below are a shallow
embedding of the code in `src/tweets/`:

* `Tweet` embeds the model `tweets/models.py:Tweet`; rows are records, the
  database table is a `List Tweet`, timestamps are naturals.
* `TweetForm` / `ReplyForm` embed the two forms of `tweets/forms.py`.
* `tweet_list_tweets`, `tweet_detail_replies`, `tweet_reply`, `tweet_update`
  and `tweet_delete` embed the view functions of `tweets/views.py`.
* `FileSizeMiddleware.call` embeds `tweets/middleware.py`.
* `DatabaseCheckMiddleware` embeds `tweets/middleware/database_check.py`.

Machine integers do not occur (Python ints are unbounded); fallible code is
embedded with `Except` (a raised `ValidationError` becomes `Except.error`,
a Django form field error is likewise an `Except.error` value handed back to
the form machinery, never an uncaught exception).
-/

/-- An uploaded file as the form layer sees it: Django's `UploadedFile`
exposes `size` (bytes) and `content_type` (the declared MIME type). -/
structure UploadedFile where
  size : Nat
  content_type : String
deriving Repr, DecidableEq

/-- The whitelist from `tweets/forms.py` (`allowed_types` in both
`TweetForm.clean_image` and `ReplyForm.clean_image`). -/
def allowed_types : List String :=
  ["image/jpeg", "image/png", "image/gif", "image/webp"]

/-- Python's `str.strip()` (what Django's `CharField(strip=True)` applies):
drop whitespace from both ends, done structurally over the character list. -/
def pyStrip (s : String) : String :=
  String.mk (((s.data.dropWhile Char.isWhitespace).reverse.dropWhile
    Char.isWhitespace).reverse)

namespace TweetForm

/-- Text validation of `TweetForm` (`tweets/forms.py` lines 8-19): the field
is `forms.CharField(max_length=280)`, so Django strips the raw value
(`strip=True` default), rejects an empty result (`required=True` default) and
rejects a stripped value longer than 280 characters.  An `Except.error` is a
field-level error collected into `form.errors`. -/
def clean_text (raw : String) : Except String String :=
  let value := pyStrip raw
  if value.isEmpty then
    Except.error "This field is required."
  else if value.length > 280 then
    Except.error "Ensure this value has at most 280 characters"
  else
    Except.ok value

/-- Image validation of `TweetForm.clean_image` (`tweets/forms.py` lines
44-60): reject a file over `5 * 1024 * 1024` bytes, then reject a declared
content type outside `allowed_types`, otherwise return the file. -/
def clean_image (image : Option UploadedFile) : Except String (Option UploadedFile) :=
  match image with
  | some img =>
      if img.size > 5 * 1024 * 1024 then
        Except.error "Image file size must be under 5MB"
      else if !(allowed_types.contains img.content_type) then
        Except.error "Only JPEG, PNG, GIF and WebP images are allowed"
      else
        Except.ok (some img)
  | none => Except.ok none

end TweetForm

namespace ReplyForm

/-- Text validation of `ReplyForm` (`tweets/forms.py` lines 63-81): the form
declares no explicit field, so the `ModelForm` machinery derives it from
`models.CharField(max_length=280)`, which yields the same stripped, required,
280-character-bounded `forms.CharField` as in `TweetForm`. -/
def clean_text (raw : String) : Except String String :=
  let value := pyStrip raw
  if value.isEmpty then
    Except.error "This field is required."
  else if value.length > 280 then
    Except.error "Ensure this value has at most 280 characters"
  else
    Except.ok value

/-- Image validation of `ReplyForm.clean_image` (`tweets/forms.py` lines
83-99), textually identical to `TweetForm.clean_image`. -/
def clean_image (image : Option UploadedFile) : Except String (Option UploadedFile) :=
  match image with
  | some img =>
      if img.size > 5 * 1024 * 1024 then
        Except.error "Image file size must be under 5MB"
      else if !(allowed_types.contains img.content_type) then
        Except.error "Only JPEG, PNG, GIF and WebP images are allowed"
      else
        Except.ok (some img)
  | none => Except.ok none

end ReplyForm

/-- A row of the `Tweet` model (`tweets/models.py` lines 6-19).  `user` and
`parent_tweet` are foreign keys held as ids; `parent_tweet` is the optional
self reference making the row a reply. -/
structure Tweet where
  id : Nat
  text : String
  image : Option UploadedFile
  created_at : Nat
  updated_at : Nat
  user : Nat
  parent_tweet : Option Nat
deriving Repr, DecidableEq

/-- `Tweet.clean` (`tweets/models.py` lines 22-24): raise a `ValidationError`
when an image is present and larger than `5 * 1024 * 1024` bytes.  This is
the only check the model layer performs. -/
def Tweet.clean (t : Tweet) : Except String Unit :=
  match t.image with
  | some img =>
      if img.size > 5 * 1024 * 1024 then
        Except.error "Image file size must be under 5MB"
      else Except.ok ()
  | none => Except.ok ()

/-- `Tweet.save` (`tweets/models.py` lines 26-29): run `clean`, then persist
through `super().save()`, which updates the row with the saved id or inserts
a new row; `auto_now_add` stamps `created_at` on insert and `auto_now`
stamps `updated_at` on every save, both with the current time `now`.  On a
`ValidationError` nothing is written, so the error branch carries no store. -/
def Tweet.save (store : List Tweet) (now : Nat) (t : Tweet) : Except String (List Tweet) :=
  match Tweet.clean t with
  | Except.error e => Except.error e
  | Except.ok _ =>
      if store.any (fun u => u.id == t.id) then
        Except.ok (store.map (fun u => if u.id == t.id then { t with updated_at := now } else u))
      else
        Except.ok (store ++ [{ t with created_at := now, updated_at := now }])

/-- Upward reachability along `parent_tweet` links, step-bounded by `fuel`:
`reachesUp store root fuel i` decides whether the chain of parent links
starting at id `i` reaches the id `root` in at most `fuel` steps. -/
def reachesUp (store : List Tweet) (root : Nat) : Nat → Nat → Bool
  | 0, i => i == root
  | fuel + 1, i =>
      i == root ||
        match store.find? (fun u => u.id == i) with
        | some t =>
            match t.parent_tweet with
            | some p => reachesUp store root fuel p
            | none => false
        | none => false

/-- `tweet.delete()` with `on_delete=models.CASCADE` on the self reference
(`tweets/models.py` lines 17-19): deleting the row `pk` cascades through
`parent_tweet`, removing every row whose parent chain reaches `pk`.  Because
rows are created after their parents, a chain starting at id `i` descends
through strictly smaller ids, so `i + 1` steps always suffice. -/
def Tweet.delete (store : List Tweet) (pk : Nat) : List Tweet :=
  store.filter (fun t => !(reachesUp store pk (t.id + 1) t.id))

/-- The transitive-reply relation: `ReplyOf store root i` holds when the row
with id `i` is the root itself or a reply (direct or transitive) of it. -/
inductive ReplyOf (store : List Tweet) (root : Nat) : Nat → Prop
  | base : ReplyOf store root root
  | step (t : Tweet) (p : Nat) (ht : t ∈ store) (hp : t.parent_tweet = some p)
      (hr : ReplyOf store root p) : ReplyOf store root t.id

/-- Row-local half of the store invariant: a reply's parent id is smaller
than its own id (parents are created, hence numbered, before replies). -/
def parent_lt (t : Tweet) : Bool :=
  match t.parent_tweet with
  | some p => p < t.id
  | none => true

/-- Store invariant maintained by the database: ids are unique (primary key)
and every parent id precedes the reply's id (rows are created in id order,
which also rules out parent cycles). -/
def StoreInv (store : List Tweet) : Prop :=
  (store.map Tweet.id).Nodup ∧ ∀ t ∈ store, parent_lt t = true

/-- Python's substring test `needle in hay`. -/
def pyIn (needle hay : String) : Bool := decide (needle.data <:+: hay.data)

/-- Outcomes a view can produce.  `notFound` is the uniform 404 of
`get_object_or_404`; the redirect constructors name their resolved target. -/
inductive ViewResponse
  | notFound
  | redirectDetail (pk : Nat)
  | redirectList
  | render (template : String)
  | serverError
deriving Repr, DecidableEq

/-- The query of `tweet_list` (`tweets/views.py` line 76):
`Tweet.objects.filter(parent_tweet__isnull=True).order_by("-created_at")`. -/
def tweet_list_tweets (store : List Tweet) : List Tweet :=
  (store.filter (fun t => t.parent_tweet == none)).mergeSort
    (fun a b => b.created_at ≤ a.created_at)

/-- The reply query of `tweet_detail` (`tweets/views.py` line 134):
`tweet.replies.all().order_by("created_at")`, where `replies` is the reverse
accessor of `parent_tweet`. -/
def tweet_detail_replies (store : List Tweet) (pk : Nat) : List Tweet :=
  (store.filter (fun t => t.parent_tweet == some pk)).mergeSort
    (fun a b => a.created_at ≤ b.created_at)

/-- The parts of an incoming form request the embedded views inspect:
HTTP method, the content type and declared content length headers, the
authenticated principal (`none` when anonymous), and the bound form data. -/
structure FormRequest where
  method : String
  content_type : String
  content_length : Option Nat
  user : Option Nat
  text : String
  image : Option UploadedFile

/-- The in-view oversize test repeated in `tweet_list`, `tweet_create`,
`tweet_reply` and `tweet_update` (for example `tweets/views.py` lines
154-156): the method is already known to be POST; the guard fires when the
content type is truthy and contains "multipart/form-data" and the declared
content length is truthy and exceeds `5 * 1024 * 1024`. -/
def oversized (req : FormRequest) : Bool :=
  !req.content_type.isEmpty && pyIn "multipart/form-data" req.content_type &&
    match req.content_length with
    | some n => decide (n > 5 * 1024 * 1024)
    | none => false

/-- `tweet_reply` (`tweets/views.py` lines 144-196).  `get_object_or_404`
first; on POST: oversize guard, then `ReplyForm` validation; a valid form is
saved with `parent_tweet` set to the target and the principal (or the default
user with id 1) as author; every non-404 outcome redirects to the target's
detail page.  `nextId` is the id the database assigns to the inserted row and
`now` the current time. -/
def tweet_reply (store : List Tweet) (req : FormRequest) (pk nextId now : Nat) :
    ViewResponse × List Tweet :=
  match store.find? (fun t => t.id == pk) with
  | none => (ViewResponse.notFound, store)
  | some _parent =>
      if req.method == "POST" then
        if oversized req then
          (ViewResponse.redirectDetail pk, store)
        else
          match ReplyForm.clean_text req.text, ReplyForm.clean_image req.image with
          | Except.ok txt, Except.ok img =>
              let reply : Tweet :=
                { id := nextId, text := txt, image := img, created_at := now,
                  updated_at := now, user := req.user.getD 1, parent_tweet := some pk }
              match Tweet.save store now reply with
              | Except.ok store2 => (ViewResponse.redirectDetail pk, store2)
              | Except.error _ => (ViewResponse.serverError, store)
          | _, _ => (ViewResponse.redirectDetail pk, store)
      else (ViewResponse.redirectDetail pk, store)

/-- `tweet_update` (`tweets/views.py` lines 199-239).  `login_required`
guarantees an authenticated `requestUser`; `get_object_or_404(Tweet, pk=pk,
user=request.user)` filters by id and author together, so a missing id and a
foreign author produce the same 404.  On a valid POST the form's fields are
written onto the instance and saved (`auto_now` refreshes `updated_at`). -/
def tweet_update (store : List Tweet) (requestUser pk : Nat) (req : FormRequest) (now : Nat) :
    ViewResponse × List Tweet :=
  match store.find? (fun u => u.id == pk && u.user == requestUser) with
  | none => (ViewResponse.notFound, store)
  | some t =>
      if req.method == "POST" then
        if oversized req then (ViewResponse.render "tweets/update.html", store)
        else
          match TweetForm.clean_text req.text, TweetForm.clean_image req.image with
          | Except.ok txt, Except.ok img =>
              match Tweet.save store now { t with text := txt, image := img } with
              | Except.ok store2 => (ViewResponse.redirectDetail pk, store2)
              | Except.error _ => (ViewResponse.serverError, store)
          | _, _ => (ViewResponse.render "tweets/update.html", store)
      else (ViewResponse.render "tweets/update.html", store)

/-- `tweet_delete` (`tweets/views.py` lines 242-252): same authorization
filter as `tweet_update`; GET renders the confirmation page, POST performs
the cascading delete and redirects to the list. -/
def tweet_delete (store : List Tweet) (requestUser pk : Nat) (method : String) :
    ViewResponse × List Tweet :=
  match store.find? (fun u => u.id == pk && u.user == requestUser) with
  | none => (ViewResponse.notFound, store)
  | some _ =>
      if method == "POST" then (ViewResponse.redirectList, Tweet.delete store pk)
      else (ViewResponse.render "tweets/delete.html", store)

/-- The parts of a raw request `FileSizeMiddleware` inspects. -/
structure HttpRequest where
  method : String
  content_type : String
  content_length : Option Nat
  path : String

/-- Outcomes of the file-size guard.  `redirectDetail` carries the pk string
extracted from the path (`none` embeds the `IndexError` a too-short path
would raise in `request.path.split("/")[-2]`). -/
inductive GuardResult
  | passThrough
  | redirectDetail (pk : Option String)
  | redirectList
  | badRequest (body : String)
deriving Repr, DecidableEq

/-- Python's `str.split(sep)` over the character list: splitting an empty
string yields one empty field, and every separator occurrence starts a new
field (so leading/trailing separators produce empty fields). -/
def pySplit (sep : Char) : List Char → List (List Char)
  | [] => [[]]
  | c :: cs =>
      let rest := pySplit sep cs
      if c = sep then [] :: rest
      else
        match rest with
        | head :: tail => (c :: head) :: tail
        | [] => [[c]]

/-- Python's `request.path.split("/")[-2]`; `none` embeds the `IndexError`
raised when the split has fewer than two fields. -/
def path_second_to_last (path : String) : Option String :=
  let parts := (pySplit '/' path.data).map String.mk
  parts[parts.length - 2]?

namespace FileSizeMiddleware

/-- `self.max_file_size` (`tweets/middleware.py` line 17). -/
def max_file_size : Nat := 5 * 1024 * 1024

/-- The trigger condition of `FileSizeMiddleware.__call__` (`tweets/
middleware.py` lines 21-28): POST method, truthy content type containing
"multipart/form-data", truthy declared content length over the limit. -/
def triggered (req : HttpRequest) : Bool :=
  req.method == "POST" && !req.content_type.isEmpty
    && pyIn "multipart/form-data" req.content_type
    && match req.content_length with
       | some n => decide (n > max_file_size)
       | none => false

/-- `FileSizeMiddleware.__call__` (`tweets/middleware.py` lines 19-59).
When the trigger fires: a path containing "tweets" is redirected — to the
detail page of `path.split("/")[-2]` when the path also contains "reply" or
"update", otherwise to the list — and any other path gets a plain-text 400
response; otherwise the request passes through to `get_response`. -/
def call (req : HttpRequest) : GuardResult :=
  if triggered req then
    if pyIn "tweets" req.path then
      if pyIn "reply" req.path then
        GuardResult.redirectDetail (path_second_to_last req.path)
      else if pyIn "update" req.path then
        GuardResult.redirectDetail (path_second_to_last req.path)
      else
        GuardResult.redirectList
    else
      GuardResult.badRequest "File too large! Maximum file size is 5MB."
  else
    GuardResult.passThrough

end FileSizeMiddleware

/-- The mutable state of `DatabaseCheckMiddleware` (`tweets/middleware/
database_check.py` lines 22-25). -/
structure DatabaseCheckMiddleware where
  db_checked : Bool
  db_healthy : Bool
deriving Repr, DecidableEq

/-- `DatabaseCheckMiddleware.__init__`: both flags start false. -/
def DatabaseCheckMiddleware.init : DatabaseCheckMiddleware :=
  { db_checked := false, db_healthy := false }

/-- What the database guard does with one request. -/
inductive DbDecision
  | passThrough
  | serverError
deriving Repr, DecidableEq

/-- `DatabaseCheckMiddleware.__call__` (`tweets/middleware/database_check.py`
lines 27-42).  `dbHealthyNow` abstracts the outcome `_check_database` would
compute against the database's state at this moment: it sets `_db_healthy`
to true when connecting (and, if needed, migrating) succeeds and to false
when a `DatabaseError` escapes.  The check only runs while `_db_checked` is
false; afterwards the stored flag alone decides between passing the request
on and the plain-text 500 response. -/
def DatabaseCheckMiddleware.call (st : DatabaseCheckMiddleware) (dbHealthyNow : Bool) :
    DatabaseCheckMiddleware × DbDecision :=
  let st1 :=
    if !st.db_checked then { db_checked := true, db_healthy := dbHealthyNow } else st
  if !st1.db_healthy then (st1, DbDecision.serverError)
  else (st1, DbDecision.passThrough)

/-- Decisions produced over a run of requests; the k-th element of the input
list is the database's actual health at the time of the k-th request. -/
def DatabaseCheckMiddleware.run (st : DatabaseCheckMiddleware) : List Bool → List DbDecision
  | [] => []
  | db :: rest =>
      let r := DatabaseCheckMiddleware.call st db
      r.2 :: DatabaseCheckMiddleware.run r.1 rest

/-- Middleware state left after a run of requests. -/
def DatabaseCheckMiddleware.runState (st : DatabaseCheckMiddleware) :
    List Bool → DatabaseCheckMiddleware
  | [] => st
  | db :: rest => DatabaseCheckMiddleware.runState (DatabaseCheckMiddleware.call st db).1 rest

/-! Concrete rows, stores and requests used to instantiate the theorems. -/

/-- A row with a tiny image whose declared type is outside the whitelist. -/
def bad_type_tweet : Tweet :=
  { id := 1, text := "hello", image := some { size := 100, content_type := "text/plain" },
    created_at := 0, updated_at := 0, user := 1, parent_tweet := none }

/-- A row with an image one byte over the 5MB model-layer limit. -/
def big_image_tweet : Tweet :=
  { id := 2, text := "big", image := some { size := 5242881, content_type := "image/png" },
    created_at := 0, updated_at := 0, user := 1, parent_tweet := none }

/-- The root of the spec's cascade example (root ← reply1 ← reply2 ← reply3). -/
def ex_root : Tweet :=
  { id := 1, text := "root", image := none, created_at := 1, updated_at := 1,
    user := 1, parent_tweet := none }

/-- First-level reply of the cascade example. -/
def ex_reply1 : Tweet :=
  { id := 2, text := "reply1", image := none, created_at := 2, updated_at := 2,
    user := 1, parent_tweet := some 1 }

/-- Second-level reply of the cascade example. -/
def ex_reply2 : Tweet :=
  { id := 3, text := "reply2", image := none, created_at := 3, updated_at := 3,
    user := 2, parent_tweet := some 2 }

/-- Third-level reply of the cascade example. -/
def ex_reply3 : Tweet :=
  { id := 4, text := "reply3", image := none, created_at := 4, updated_at := 4,
    user := 1, parent_tweet := some 3 }

/-- Store of the spec's cascade example. -/
def ex_store : List Tweet := [ex_root, ex_reply1, ex_reply2, ex_reply3]

/-- A store holding one post authored by user 7. -/
def c5_tweet : Tweet :=
  { id := 1, text := "hi", image := none, created_at := 1, updated_at := 1,
    user := 7, parent_tweet := none }

/-- Singleton store around `c5_tweet`. -/
def c5_store : List Tweet := [c5_tweet]

/-- A plain, valid POST form submission by user 7. -/
def c5_req : FormRequest :=
  { method := "POST", content_type := "", content_length := none,
    user := some 7, text := "new text", image := none }

/-- A GET request to the reply endpoint. -/
def c10_req : FormRequest :=
  { method := "GET", content_type := "", content_length := none,
    user := some 7, text := "", image := none }

/-! Theorems. -/

theorem string_length_zero_iff (s : String) : s.length = 0 ↔ s = "" := by
  constructor
  · intro h
    cases s with
    | mk data =>
        cases data with
        | nil => rfl
        | cons a as => simp [String.length] at h
  · intro h
    simp [h]

theorem strip_isEmpty_iff_length (s : String) :
    (pyStrip s).isEmpty = true ↔ (pyStrip s).length = 0 := by
  rw [String.isEmpty_iff, ← string_length_zero_iff]

/-- Claim C2: for every create or reply submission, text validation succeeds
exactly when the trimmed text length is between 1 and 280 characters; for
trimmed length 0 or any length at least 281 it fails with a field-level error
on the text field (an `Except.error` value collected into the form's error
set, never an uncaught exception). -/
theorem tweet_text_validation (raw : String) :
    ((TweetForm.clean_text raw).isOk = true ↔
        1 ≤ (pyStrip raw).length ∧ (pyStrip raw).length ≤ 280)
    ∧ ((∃ e, TweetForm.clean_text raw = Except.error e) ↔
        (pyStrip raw).length = 0 ∨ 281 ≤ (pyStrip raw).length)
    ∧ ReplyForm.clean_text raw = TweetForm.clean_text raw := by
  have hempty := strip_isEmpty_iff_length raw
  refine ⟨?_, ?_, rfl⟩
  · unfold TweetForm.clean_text
    by_cases h1 : (pyStrip raw).isEmpty
    · have h0 := hempty.mp h1
      simp [h1, h0, Except.isOk, Except.toBool]
    · have h0 : (pyStrip raw).length ≠ 0 := fun h => h1 (hempty.mpr h)
      by_cases h2 : (pyStrip raw).length > 280
      · simp [h1, h2, Except.isOk, Except.toBool]
      · simp [h1, h2, Except.isOk, Except.toBool]
        all_goals omega
  · unfold TweetForm.clean_text
    by_cases h1 : (pyStrip raw).isEmpty
    · have h0 := hempty.mp h1
      simp [h1, h0]
    · have h0 : (pyStrip raw).length ≠ 0 := fun h => h1 (hempty.mpr h)
      by_cases h2 : (pyStrip raw).length > 280
      · simp [h1, h2]
        all_goals omega
      · simp [h1, h2]
        all_goals omega

/-- Claim C3: image validation accepts exactly the submissions whose size is
at most 5,242,880 bytes and whose declared content type is on the whitelist
(so a file of exactly 5,242,880 bytes passes); a size of at least 5,242,881
bytes or a declared type off the whitelist yields an image-field error, and
`ReplyForm` validates identically to `TweetForm`. -/
theorem tweet_image_validation (img : UploadedFile) :
    (TweetForm.clean_image (some img) = Except.ok (some img) ↔
        img.size ≤ 5242880 ∧ img.content_type ∈ allowed_types)
    ∧ ((∃ e, TweetForm.clean_image (some img) = Except.error e) ↔
        5242881 ≤ img.size ∨ img.content_type ∉ allowed_types)
    ∧ ReplyForm.clean_image (some img) = TweetForm.clean_image (some img) := by
  have hmem : allowed_types.contains img.content_type = true ↔
      img.content_type ∈ allowed_types := List.elem_iff
  have hnum : (5 * 1024 * 1024 : Nat) = 5242880 := by norm_num
  refine ⟨?_, ?_, rfl⟩
  · unfold TweetForm.clean_image
    by_cases h1 : img.size > 5 * 1024 * 1024
    · simp [h1]
    · by_cases h2 : img.content_type ∈ allowed_types
      · have h2b : allowed_types.contains img.content_type = true := hmem.mpr h2
        simp [h1, h2b, h2]
        all_goals omega
      · have h2b : allowed_types.contains img.content_type = false := by
          rcases Bool.eq_false_or_eq_true (allowed_types.contains img.content_type) with h | h
          · exact absurd (hmem.mp h) h2
          · exact h
        simp [h1, h2b, h2]
  · unfold TweetForm.clean_image
    by_cases h1 : img.size > 5 * 1024 * 1024
    · simp [h1]
      all_goals omega
    · by_cases h2 : img.content_type ∈ allowed_types
      · have h2b : allowed_types.contains img.content_type = true := hmem.mpr h2
        simp [h1, h2b, h2]
        all_goals omega
      · have h2b : allowed_types.contains img.content_type = false := by
          rcases Bool.eq_false_or_eq_true (allowed_types.contains img.content_type) with h | h
          · exact absurd (hmem.mp h) h2
          · exact h
        simp [h1, h2b, h2]

/-- Claim C8: when a submitted image both exceeds 5,242,880 bytes and has a
declared content type outside the whitelist, `clean_image` raises on the size
check first, so only the "file size" message is surfaced and the type
message is never produced for that submission. -/
theorem clean_image_size_error_first (img : UploadedFile)
    (h1 : 5242880 < img.size) (h2 : img.content_type ∉ allowed_types) :
    TweetForm.clean_image (some img) = Except.error "Image file size must be under 5MB"
    ∧ ReplyForm.clean_image (some img)
        = Except.error "Image file size must be under 5MB" := by
  have h1b : img.size > 5 * 1024 * 1024 := by omega
  unfold TweetForm.clean_image ReplyForm.clean_image
  simp [h1b]

/-- Witness for C8 at a 6MB text/plain upload. -/
theorem clean_image_size_error_first_witness :
    TweetForm.clean_image (some { size := 6291456, content_type := "text/plain" })
        = Except.error "Image file size must be under 5MB"
    ∧ ReplyForm.clean_image (some { size := 6291456, content_type := "text/plain" })
        = Except.error "Image file size must be under 5MB" :=
  clean_image_size_error_first { size := 6291456, content_type := "text/plain" }
    (by norm_num) (by decide)

/-- Claim C6 counterexample: `Tweet.clean` checks only the image size, so a
row whose image has the disallowed declared type "text/plain" sails through
`Tweet.save` and is persisted, refuting the claimed save-layer content-type
invariant. -/
theorem tweet_save_accepts_disallowed_type :
    Tweet.save [] 5 bad_type_tweet
        = Except.ok [{ bad_type_tweet with created_at := 5, updated_at := 5 }]
    ∧ allowed_types.contains "text/plain" = false := by
  constructor
  · rfl
  · rfl

/-- Claim C6 (amended): a row persists through `Tweet.save` exactly when any
present image is at most 5,242,880 bytes — the declared content type is not
checked at the save layer (only the forms check it); an oversized image
raises the model-layer `ValidationError` and nothing is written (the error
result carries no store). -/
theorem tweet_save_size_invariant (store : List Tweet) (now : Nat) (t : Tweet) :
    ((Tweet.save store now t).isOk = true ↔ ∀ img ∈ t.image, img.size ≤ 5242880)
    ∧ (∀ img ∈ t.image, 5242881 ≤ img.size →
        Tweet.save store now t = Except.error "Image file size must be under 5MB") := by
  unfold Tweet.save Tweet.clean
  cases himg : t.image with
  | none =>
      simp only [himg]
      constructor
      · constructor
        · intro _
          simp
        · intro _
          split <;> rfl
      · simp
  | some img =>
      by_cases h : img.size > 5 * 1024 * 1024
      · simp only [himg, h, if_true]
        constructor
        · simp [Except.isOk, Except.toBool]
          omega
        · simp
      · simp only [himg, h, if_false]
        constructor
        · constructor
          · intro _
            simp [Option.mem_def]
            omega
          · intro _
            split <;> rfl
        · simp [Option.mem_def]
          omega

/-- Witness for the amended C6 at an image one byte over the limit. -/
theorem tweet_save_size_invariant_witness :
    Tweet.save [] 0 big_image_tweet = Except.error "Image file size must be under 5MB" :=
  (tweet_save_size_invariant [] 0 big_image_tweet).2
    { size := 5242881, content_type := "image/png" } rfl (by norm_num)

theorem db_guard_steady (h : Bool) (dbs : List Bool) :
    DatabaseCheckMiddleware.run { db_checked := true, db_healthy := h } dbs
        = List.replicate dbs.length
            (if h then DbDecision.passThrough else DbDecision.serverError)
    ∧ DatabaseCheckMiddleware.runState { db_checked := true, db_healthy := h } dbs
        = { db_checked := true, db_healthy := h } := by
  induction dbs with
  | nil => exact ⟨rfl, rfl⟩
  | cons db rest ih =>
      have hcall : DatabaseCheckMiddleware.call { db_checked := true, db_healthy := h } db
          = ({ db_checked := true, db_healthy := h },
             if h then DbDecision.passThrough else DbDecision.serverError) := by
        cases h <;> rfl
      constructor
      · simp [DatabaseCheckMiddleware.run, hcall, ih.1, List.replicate_succ]
      · simp [DatabaseCheckMiddleware.runState, hcall, ih.2]

/-- Claim C9: the health flag is computed exactly once, on the first request;
from then on the middleware state is frozen at the value computed then, and
every decision (pass through when healthy, plain-text 500 when not) depends
only on the database's health at the first request, whatever its actual
health at the later requests. -/
theorem db_check_computed_once (first : Bool) (rest : List Bool) :
    DatabaseCheckMiddleware.run DatabaseCheckMiddleware.init (first :: rest)
        = List.replicate (rest.length + 1)
            (if first then DbDecision.passThrough else DbDecision.serverError)
    ∧ DatabaseCheckMiddleware.runState DatabaseCheckMiddleware.init (first :: rest)
        = { db_checked := true, db_healthy := first } := by
  have hcall : DatabaseCheckMiddleware.call DatabaseCheckMiddleware.init first
      = ({ db_checked := true, db_healthy := first },
         if first then DbDecision.passThrough else DbDecision.serverError) := by
    cases first <;> rfl
  have hsteady := db_guard_steady first rest
  constructor
  · simp [DatabaseCheckMiddleware.run, hcall, hsteady.1, List.replicate_succ]
  · simp [DatabaseCheckMiddleware.runState, hcall, hsteady.2]

/-- Claim C10: a non-POST request to the reply endpoint of an existing post
creates nothing — the store is returned unchanged with a redirect to that
post's detail page — and when the target id does not exist the outcome is
the uniform not-found with the store likewise unchanged. -/
theorem tweet_reply_non_post (store : List Tweet) (req : FormRequest)
    (pk nextId now : Nat) (hm : req.method ≠ "POST") :
    ((∃ t ∈ store, t.id = pk) →
        tweet_reply store req pk nextId now = (ViewResponse.redirectDetail pk, store))
    ∧ ((∀ t ∈ store, t.id ≠ pk) →
        tweet_reply store req pk nextId now = (ViewResponse.notFound, store)) := by
  have hbeq : (req.method == "POST") = false := beq_eq_false_iff_ne.mpr hm
  constructor
  · rintro ⟨t, ht, hid⟩
    have hne : store.find? (fun u => u.id == pk) ≠ none := by
      intro hnone
      rw [List.find?_eq_none] at hnone
      exact hnone t ht (by simp [hid])
    obtain ⟨u, hu⟩ := Option.ne_none_iff_exists'.mp hne
    unfold tweet_reply
    rw [hu]
    simp [hbeq]
  · intro hnone
    have hfind : store.find? (fun u => u.id == pk) = none := by
      rw [List.find?_eq_none]
      intro t ht
      simp [hnone t ht]
    unfold tweet_reply
    rw [hfind]

/-- Witness for C10: a GET to the reply endpoint of the only post redirects
without touching the store, and against the empty store it is a 404. -/
theorem tweet_reply_non_post_witness :
    tweet_reply c5_store c10_req 1 2 3 = (ViewResponse.redirectDetail 1, c5_store)
    ∧ tweet_reply [] c10_req 1 2 3 = (ViewResponse.notFound, []) :=
  ⟨(tweet_reply_non_post c5_store c10_req 1 2 3 (by decide)).1
      ⟨c5_tweet, by simp [c5_store], rfl⟩,
   (tweet_reply_non_post [] c10_req 1 2 3 (by decide)).2 (by simp)⟩

/-- Claim C4: the top-level listing contains exactly the rows without a
parent reference, pairwise ordered newest-first by `created_at`; the reply
listing of a post contains exactly its direct children, pairwise ordered
oldest-first by `created_at`. -/
theorem tweet_listing_order (store : List Tweet) (pk : Nat) :
    (∀ t, t ∈ tweet_list_tweets store ↔ t ∈ store ∧ t.parent_tweet = none)
    ∧ List.Pairwise (fun a b : Tweet => b.created_at ≤ a.created_at)
        (tweet_list_tweets store)
    ∧ (∀ t, t ∈ tweet_detail_replies store pk ↔ t ∈ store ∧ t.parent_tweet = some pk)
    ∧ List.Pairwise (fun a b : Tweet => a.created_at ≤ b.created_at)
        (tweet_detail_replies store pk) := by
  refine ⟨?_, ?_, ?_, ?_⟩
  · intro t
    rw [tweet_list_tweets, (List.mergeSort_perm _ _).mem_iff, List.mem_filter]
    simp
  · have h := @List.sorted_mergeSort Tweet
      (fun a b : Tweet => decide (b.created_at ≤ a.created_at))
      (by
        intro a b c hab hbc
        simp only [decide_eq_true_eq] at *
        omega)
      (by
        intro a b
        simp only [Bool.or_eq_true, decide_eq_true_eq]
        omega)
      (store.filter fun t => t.parent_tweet == none)
    exact h.imp (by intro a b hab; simpa using hab)
  · intro t
    rw [tweet_detail_replies, (List.mergeSort_perm _ _).mem_iff, List.mem_filter]
    simp
  · have h := @List.sorted_mergeSort Tweet
      (fun a b : Tweet => decide (a.created_at ≤ b.created_at))
      (by
        intro a b c hab hbc
        simp only [decide_eq_true_eq] at *
        omega)
      (by
        intro a b
        simp only [Bool.or_eq_true, decide_eq_true_eq]
        omega)
      (store.filter fun t => t.parent_tweet == some pk)
    exact h.imp (by intro a b hab; simpa using hab)

/-- Claim C7 counterexample: the guard never redirects for the reply paths
this app actually serves.  Per `tweets/urls.py` the app is mounted at the
site root, so the reply endpoint of post 5 is "/5/reply/"; that path does
not contain "tweets", and an oversized multipart POST to it gets the
plain-text 400, not a redirect to post 5's detail page.  Even for a
hypothetical "tweets"-prefixed path, `path.split("/")[-2]` on the
slash-terminated reply URL extracts the literal segment "reply", not the
target post's id "5". -/
theorem file_size_guard_counterexample :
    FileSizeMiddleware.call
        { method := "POST", content_type := "multipart/form-data",
          content_length := some 5242881, path := "/5/reply/" }
        = GuardResult.badRequest "File too large! Maximum file size is 5MB."
    ∧ FileSizeMiddleware.call
        { method := "POST", content_type := "multipart/form-data",
          content_length := some 5242881, path := "/tweets/5/reply/" }
        = GuardResult.redirectDetail (some "reply")
    ∧ some "reply" ≠ some "5" := by
  refine ⟨?_, ?_, by decide⟩
  · rfl
  · rfl

/-- Claim C7 (amended): for every POST request whose content type contains
"multipart/form-data" and whose declared content length exceeds 5,242,880
bytes, the guard rejects the request before the handler runs — when the path
contains "tweets" it redirects: to the detail page of the second-to-last
slash-separated path segment if the path also contains "reply" or "update"
(for the canonical trailing-slash URLs that segment is the literal word
"reply" or "update", not the target post's id), otherwise to the list page;
when the path does not contain "tweets" (as for every URL this app serves,
since it is mounted at the site root) it returns a plain-text 400 response.
All other requests pass through to the handler unmodified. -/
theorem file_size_guard_behavior (req : HttpRequest) :
    (FileSizeMiddleware.triggered req = true ↔
        req.method = "POST" ∧ req.content_type.isEmpty = false
          ∧ pyIn "multipart/form-data" req.content_type = true
          ∧ ∃ n, req.content_length = some n ∧ 5242880 < n)
    ∧ (FileSizeMiddleware.triggered req = false →
        FileSizeMiddleware.call req = GuardResult.passThrough)
    ∧ (FileSizeMiddleware.triggered req = true →
        (pyIn "tweets" req.path = false →
            FileSizeMiddleware.call req
              = GuardResult.badRequest "File too large! Maximum file size is 5MB.")
        ∧ (pyIn "tweets" req.path = true → pyIn "reply" req.path = true →
            FileSizeMiddleware.call req
              = GuardResult.redirectDetail (path_second_to_last req.path))
        ∧ (pyIn "tweets" req.path = true → pyIn "reply" req.path = false →
            pyIn "update" req.path = true →
            FileSizeMiddleware.call req
              = GuardResult.redirectDetail (path_second_to_last req.path))
        ∧ (pyIn "tweets" req.path = true → pyIn "reply" req.path = false →
            pyIn "update" req.path = false →
            FileSizeMiddleware.call req = GuardResult.redirectList)) := by
  have hlen : (match req.content_length with
      | some n => decide (n > FileSizeMiddleware.max_file_size)
      | none => false) = true ↔
      ∃ n, req.content_length = some n ∧ 5242880 < n := by
    cases req.content_length with
    | none => simp
    | some n => simp [FileSizeMiddleware.max_file_size]
  refine ⟨?_, ?_, ?_⟩
  · unfold FileSizeMiddleware.triggered
    rw [Bool.and_eq_true, Bool.and_eq_true, Bool.and_eq_true, hlen]
    simp only [beq_iff_eq, Bool.not_eq_true']
    tauto
  · intro h
    simp [FileSizeMiddleware.call, h]
  · intro h
    refine ⟨?_, ?_, ?_, ?_⟩ <;> intros <;> simp [FileSizeMiddleware.call, h, *]

/-- Witness for the amended C7: an ordinary GET passes through, and an
oversized multipart POST to a "tweets"-containing path without "reply" or
"update" is redirected to the list. -/
theorem file_size_guard_behavior_witness :
    FileSizeMiddleware.call
        { method := "GET", content_type := "text/html", content_length := none,
          path := "/" }
        = GuardResult.passThrough
    ∧ FileSizeMiddleware.call
        { method := "POST", content_type := "multipart/form-data; boundary=x",
          content_length := some 6000000, path := "/tweets/" }
        = GuardResult.redirectList :=
  ⟨(file_size_guard_behavior
      { method := "GET", content_type := "text/html", content_length := none,
        path := "/" }).2.1 (by decide),
   ((file_size_guard_behavior
      { method := "POST", content_type := "multipart/form-data; boundary=x",
        content_length := some 6000000, path := "/tweets/" }).2.2
      (by decide)).2.2.2 (by decide) (by decide) (by decide)⟩

theorem find_id_unique {store : List Tweet} {t : Tweet}
    (hnd : (store.map Tweet.id).Nodup) (ht : t ∈ store) :
    store.find? (fun u => u.id == t.id) = some t := by
  induction store with
  | nil => cases ht
  | cons hd rest ih =>
      rw [List.map_cons, List.nodup_cons] at hnd
      rcases List.mem_cons.mp ht with rfl | hmem
      · simp [List.find?]
      · have hne : (hd.id == t.id) = false := by
          rw [beq_eq_false_iff_ne]
          intro heq
          exact hnd.1 (heq ▸ List.mem_map_of_mem Tweet.id hmem)
        simp only [List.find?, hne]
        exact ih hnd.2 hmem

theorem reachesUp_sound {store : List Tweet} {root : Nat} :
    ∀ fuel i, reachesUp store root fuel i = true → ReplyOf store root i := by
  intro fuel
  induction fuel with
  | zero =>
      intro i h
      have hi : i = root := by simpa [reachesUp] using h
      exact hi ▸ ReplyOf.base
  | succ fuel ih =>
      intro i h
      simp only [reachesUp, Bool.or_eq_true] at h
      rcases h with hbase | hstep
      · exact (beq_iff_eq.mp hbase) ▸ ReplyOf.base
      · cases hfind : store.find? (fun u => u.id == i) with
        | none =>
            rw [hfind] at hstep
            simp at hstep
        | some t =>
            rw [hfind] at hstep
            cases hpar : t.parent_tweet with
            | none =>
                simp only [hpar] at hstep
                exact absurd hstep (by simp)
            | some p =>
                simp only [hpar] at hstep
                have hrec := ih p hstep
                have htmem := List.mem_of_find?_eq_some hfind
                have htid : t.id = i := by
                  have hp := List.find?_some hfind
                  simpa using hp
                exact htid ▸ ReplyOf.step t p htmem hpar hrec

theorem reachesUp_complete {store : List Tweet} {root i : Nat}
    (hinv : StoreInv store) (h : ReplyOf store root i) :
    ∀ fuel, i < fuel → reachesUp store root fuel i = true := by
  induction h with
  | base =>
      intro fuel hf
      cases fuel with
      | zero => omega
      | succ f => simp [reachesUp]
  | step t p htmem hpar hr ih =>
      intro fuel hf
      cases fuel with
      | zero => omega
      | succ f =>
          have hfind := find_id_unique hinv.1 htmem
          have hplt : p < t.id := by
            have hl := hinv.2 t htmem
            simpa [parent_lt, hpar] using hl
          simp only [reachesUp, hfind, hpar, Bool.or_eq_true]
          exact Or.inr (ih f (by omega))

/-- Claim C1: under the store invariant (unique ids, parents created before
replies), deleting the post `pk` removes exactly `pk` and its transitive
replies: a row survives `Tweet.delete store pk` iff it was in the store and
is not a transitive reply of `pk`; every other row — in particular the
deleted post's own parent — remains in the store unchanged. -/
theorem tweet_delete_cascade (store : List Tweet) (pk : Nat)
    (hinv : StoreInv store) (t : Tweet) :
    t ∈ Tweet.delete store pk ↔ t ∈ store ∧ ¬ ReplyOf store pk t.id := by
  unfold Tweet.delete
  rw [List.mem_filter]
  constructor
  · rintro ⟨hmem, hb⟩
    refine ⟨hmem, ?_⟩
    intro hrep
    have htrue := reachesUp_complete hinv hrep (t.id + 1) (by omega)
    rw [htrue] at hb
    simp at hb
  · rintro ⟨hmem, hrep⟩
    refine ⟨hmem, ?_⟩
    rcases Bool.eq_false_or_eq_true (reachesUp store pk (t.id + 1) t.id) with htrue | hfalse
    · exact absurd (reachesUp_sound _ _ htrue) hrep
    · simp [hfalse]

/-- Witness for C1 on the spec's example chain (root ← reply1 ← reply2 ←
reply3): instantiates the cascade theorem for the deletion of reply1 (id 2)
at the root row. -/
theorem tweet_delete_cascade_witness :
    ex_root ∈ Tweet.delete ex_store 2 ↔ ex_root ∈ ex_store ∧ ¬ ReplyOf ex_store 2 ex_root.id :=
  tweet_delete_cascade ex_store 2 (by constructor <;> decide) ex_root

theorem clean_of_clean_image (x img : Option UploadedFile)
    (h : TweetForm.clean_image x = Except.ok img) (t : Tweet) (ht : t.image = img) :
    Tweet.clean t = Except.ok () := by
  cases x with
  | none =>
      simp only [TweetForm.clean_image, Except.ok.injEq] at h
      subst h
      simp [Tweet.clean, ht]
  | some i =>
      by_cases h1 : i.size > 5 * 1024 * 1024
      · simp [TweetForm.clean_image, h1] at h
      · by_cases h2 : i.content_type ∈ allowed_types
        · simp [TweetForm.clean_image, h1, h2] at h
          simp [Tweet.clean, ht, ← h, h1]
        · simp [TweetForm.clean_image, h1, h2] at h

/-- Claim C5: update and delete filter by id and author together, so a
nonexistent id and a foreign author produce the same uniform not-found with
the store unchanged; for the author (the row `get_object_or_404` finds), a
valid POST update succeeds — redirecting to the detail page with every row
carrying the target id stamped `updated_at = now`, strictly greater than its
previous value whenever the clock has advanced — and a POST delete succeeds,
removing the target id from the store. -/
theorem update_delete_authorization (store : List Tweet) (requestUser pk : Nat)
    (req : FormRequest) (now : Nat) (t : Tweet) :
    (store.find? (fun u => u.id == pk && u.user == requestUser) = none →
        tweet_update store requestUser pk req now = (ViewResponse.notFound, store)
        ∧ tweet_delete store requestUser pk req.method = (ViewResponse.notFound, store))
    ∧ (store.find? (fun u => u.id == pk && u.user == requestUser) = some t →
        req.method = "POST" → oversized req = false →
        (∃ txt, TweetForm.clean_text req.text = Except.ok txt) →
        (∃ img, TweetForm.clean_image req.image = Except.ok img) →
        t.updated_at < now →
        (∃ store2,
            tweet_update store requestUser pk req now
              = (ViewResponse.redirectDetail pk, store2)
            ∧ ∀ u ∈ store2, u.id = pk →
                u.updated_at = now ∧ t.updated_at < u.updated_at)
        ∧ tweet_delete store requestUser pk req.method
            = (ViewResponse.redirectList, Tweet.delete store pk)
        ∧ ∀ u ∈ Tweet.delete store pk, u.id ≠ pk) := by
  constructor
  · intro hnone
    constructor
    · unfold tweet_update
      rw [hnone]
    · unfold tweet_delete
      rw [hnone]
  · rintro hfind hpost hsize ⟨txt, htxt⟩ ⟨img, himg⟩ hlt
    have hmem := List.mem_of_find?_eq_some hfind
    have hpred := List.find?_some hfind
    rw [Bool.and_eq_true, beq_iff_eq, beq_iff_eq] at hpred
    obtain ⟨hid, huser⟩ := hpred
    have hposted : (req.method == "POST") = true := by simp [hpost]
    have hclean : Tweet.clean { t with text := txt, image := img } = Except.ok () :=
      clean_of_clean_image req.image img himg _ rfl
    have hany : store.any
        (fun u => u.id == ({ t with text := txt, image := img } : Tweet).id) = true :=
      List.any_eq_true.mpr ⟨t, hmem, by simp⟩
    refine ⟨?_, ?_, ?_⟩
    · unfold tweet_update
      rw [hfind]
      simp only [hposted, if_true, hsize, Bool.false_eq_true, if_false, htxt, himg]
      unfold Tweet.save
      rw [hclean]
      simp only [hany, if_true]
      refine ⟨_, rfl, ?_⟩
      intro u hu hupk
      rcases List.mem_map.mp hu with ⟨v, hv, rfl⟩
      by_cases hveq : (v.id == ({ t with text := txt, image := img } : Tweet).id) = true
      · simp only [hveq, if_true]
        exact ⟨by simp, by simpa using hlt⟩
      · have hvne : v.id ≠ t.id := by
          intro hcontra
          exact hveq (by simp [hcontra])
        rw [Bool.not_eq_true] at hveq
        simp only [hveq, Bool.false_eq_true, if_false] at hupk
        exact absurd (hupk.trans hid.symm) hvne
    · unfold tweet_delete
      rw [hfind]
      simp only [hposted, if_true]
    · intro u hu hupk
      unfold Tweet.delete at hu
      have hkeep := (List.mem_filter.mp hu).2
      have hreach : reachesUp store pk (u.id + 1) u.id = true := by
        simp [reachesUp, hupk]
      rw [hreach] at hkeep
      simp at hkeep

/-- Witness for C5: on a one-post store owned by user 7, user 9's update and
delete both come back not-found with the store intact, while user 7's valid
POST update redirects with `updated_at` bumped to 5 > 1 and user 7's POST
delete removes the post. -/
theorem update_delete_authorization_witness :
    (tweet_update c5_store 9 1 c5_req 5 = (ViewResponse.notFound, c5_store)
      ∧ tweet_delete c5_store 9 1 c5_req.method = (ViewResponse.notFound, c5_store))
    ∧ ((∃ store2,
          tweet_update c5_store 7 1 c5_req 5 = (ViewResponse.redirectDetail 1, store2)
          ∧ ∀ u ∈ store2, u.id = 1 → u.updated_at = 5 ∧ c5_tweet.updated_at < u.updated_at)
        ∧ tweet_delete c5_store 7 1 c5_req.method
            = (ViewResponse.redirectList, Tweet.delete c5_store 1)
        ∧ ∀ u ∈ Tweet.delete c5_store 1, u.id ≠ 1) :=
  ⟨(update_delete_authorization c5_store 9 1 c5_req 5 c5_tweet).1 (by decide),
   (update_delete_authorization c5_store 7 1 c5_req 5 c5_tweet).2 (by decide) rfl
     (by decide) ⟨"new text", rfl⟩ ⟨none, rfl⟩ (by decide)⟩
